import Mathlib

/-!
Verification of the client-side state synchronization layer of the
ad-ops-command-center scaffold (generated by src/ui-react/generate_phase1.py).

The generated sources embedded in the generator are the authority:
  - useSSE (src/hooks/useSSE.ts): decodes stream frames and shallow-merges
    the decoded payload into the cache entry addressed by the frame,
    via the spread expression taking old fields first, patch fields last.
  - parse / ApiError (src/api/client.ts, src/types/common.ts): non-2xx
    responses raise a typed error carrying status and body text; 2xx
    responses are JSON-decoded.
  - addToast / removeToast (src/stores/ui.ts) and the Toast component
    (src/components/feedback/Toast.tsx): transient notifications with a
    fixed 5000ms lifetime enforced by timers.
  - usePreferencesStore (src/stores/preferences.ts): a persisted
    preference object with a density setter.

Cache-entry bookkeeping (status, lastFetchedAt, in-flight fetch
deduplication) and the persistence middleware live in external libraries,
not in the repository; where a claim depends on them they are modelled
from the specification, and each such definition says so in its doc
comment.
-/

namespace AdOps

/-- JSON-like partial objects, modelled field-extensionally: a field name
maps to the value stored at that field, or none when the field is absent. -/
abbrev Obj (V : Type) : Type := String → Option V

/-- The empty object. -/
def emptyObj {V : Type} : Obj V := fun _ => none

/-- A one-field object. -/
def objOf {V : Type} (f : String) (v : V) : Obj V :=
  fun g => if g = f then some v else none

/-- Shallow merge from useSSE: the spread expression that takes every field
of the old object, then overwrites with every field present in the patch.
Fields present in the patch win; fields absent from the patch fall through
to the old object. -/
def mergePatch {V : Type} (old patch : Obj V) : Obj V :=
  fun f =>
    match patch f with
    | some v => some v
    | none => old f

/-- Cache entry status values, from the specification's data model. -/
inductive Status : Type where
  | idle
  | fetching
  | fresh
  | stale
  | error
deriving DecidableEq, Repr

/-- A cache entry. The value field is the payload useSSE merges into;
status, lastFetchedAt and error are the bookkeeping fields described by
the specification (the scaffold delegates them to its query library, which
is outside the repository). -/
structure CacheEntry (V : Type) : Type where
  value : Obj V
  status : Status
  lastFetchedAt : Option Nat
  error : Option String

/-- The keyed request cache. -/
abbrev Cache (K V : Type) : Type := K → Option (CacheEntry V)

/-- The cache with no entries. -/
def emptyCache {K V : Type} : Cache K V := fun _ => none

/-- A decoded push event: the key it addresses and the partial object to
merge, as decoded by useSSE from a stream frame. -/
structure DeltaEvent (K V : Type) : Type where
  targetKey : K
  patch : Obj V

/-- Applying a delta. The value update is the shallow merge from useSSE.
Modelled from the spec: the entry-level bookkeeping is the specification's
applyDelta contract — an existing entry keeps its status, lastFetchedAt and
error; a missing entry is created with status fresh and value equal to the
patch alone (bootstrap semantics). -/
def applyDelta {K V : Type} [DecidableEq K] (c : Cache K V) (e : DeltaEvent K V) :
    Cache K V :=
  fun k =>
    if k = e.targetKey then
      match c e.targetKey with
      | some entry => some { entry with value := mergePatch entry.value e.patch }
      | none =>
          some { value := mergePatch emptyObj e.patch
                 status := Status.fresh
                 lastFetchedAt := none
                 error := none }
    else c k

/-- Processing a sequence of inbound frames in arrival order. Each frame is
decoded and, when decoding succeeds, applied to the cache; a frame whose
payload fails to decode leaves the cache untouched and processing moves to
the next frame. In the generated code the decode failure is a JSON.parse
exception inside a single event-listener dispatch, which aborts only that
dispatch: the stream object stays open and later frames still fire the
listener, so the frame is dropped and processing continues. -/
def processFrames {K V : Type} [DecidableEq K]
    (decode : String → Option (DeltaEvent K V)) (frames : List String)
    (c : Cache K V) : Cache K V :=
  frames.foldl
    (fun acc f =>
      match decode f with
      | some e => applyDelta acc e
      | none => acc)
    c

/-- Modelled from the spec: completion of a successful fetch for a key is
handled by the query library, which is not in the repository; per the
specification it sets status to fresh, value to the loader result, records
the fetch time and clears the error field. -/
def fetchSucceed {K V : Type} [DecidableEq K] (c : Cache K V) (k : K) (v : Obj V)
    (now : Nat) : Cache K V :=
  fun k2 =>
    if k2 = k then
      some { value := v, status := Status.fresh, lastFetchedAt := some now,
             error := none }
    else c k2

/-- Modelled from the spec: completion of a failed fetch is handled by the
query library, which is not in the repository; per the specification it
sets status to error and records the failure detail while preserving the
previous value and fetch time (stale-while-error). -/
def fetchFail {K V : Type} [DecidableEq K] (c : Cache K V) (k : K) (msg : String) :
    Cache K V :=
  fun k2 =>
    if k2 = k then
      match c k with
      | some entry => some { entry with status := Status.error, error := some msg }
      | none =>
          some { value := emptyObj, status := Status.error, lastFetchedAt := none,
                 error := some msg }
    else c k2

/-- Modelled from the spec: the in-flight bookkeeping of the request cache
is handled by the query library, which is not in the repository. The state
tracks, per key, the entry status and the number of loader invocations
currently running for that key. -/
structure FetchSys (K : Type) : Type where
  status : K → Status
  inflight : K → Nat

/-- Initial fetch-system state: every key idle, nothing in flight. -/
def FetchSys.init {K : Type} : FetchSys K :=
  { status := fun _ => Status.idle, inflight := fun _ => 0 }

/-- Events observable at the fetch-system boundary: a caller requests a
fetch for a key, or the in-flight loader for a key completes. -/
inductive FetchOp (K : Type) : Type where
  | start (k : K)
  | finishOk (k : K)
  | finishErr (k : K)

/-- Modelled from the spec: one step of the fetch system. A fetch request
for a key already fetching attaches to the in-flight operation and changes
nothing (the loader is not invoked again); otherwise it marks the key
fetching and starts one loader invocation. A completion for a fetching key
settles it to fresh or error and ends the invocation. -/
def fetchStep {K : Type} [DecidableEq K] (s : FetchSys K) (op : FetchOp K) :
    FetchSys K :=
  match op with
  | FetchOp.start k =>
      if s.status k = Status.fetching then s
      else
        { status := fun k2 => if k2 = k then Status.fetching else s.status k2
          inflight := fun k2 => if k2 = k then s.inflight k2 + 1 else s.inflight k2 }
  | FetchOp.finishOk k =>
      if s.status k = Status.fetching then
        { status := fun k2 => if k2 = k then Status.fresh else s.status k2
          inflight := fun k2 => if k2 = k then 0 else s.inflight k2 }
      else s
  | FetchOp.finishErr k =>
      if s.status k = Status.fetching then
        { status := fun k2 => if k2 = k then Status.error else s.status k2
          inflight := fun k2 => if k2 = k then 0 else s.inflight k2 }
      else s

/-- Running the fetch system from the initial state over a sequence of
boundary events, covering every interleaving of fetch requests and
completions. -/
def fetchRun {K : Type} [DecidableEq K] (ops : List (FetchOp K)) : FetchSys K :=
  ops.foldl fetchStep FetchSys.init

/-- Toast severity values, from the ToastItem type in src/stores/ui.ts. -/
inductive ToastType : Type where
  | info
  | success
  | error
deriving DecidableEq, Repr

/-- A transient notification, from the ToastItem type in src/stores/ui.ts. -/
structure ToastItem : Type where
  id : String
  message : String
  ty : ToastType
deriving DecidableEq, Repr

/-- addToast from src/stores/ui.ts: appends a new item to the list. -/
def addToast (ts : List ToastItem) (id msg : String) (ty : ToastType) :
    List ToastItem :=
  ts ++ [⟨id, msg, ty⟩]

/-- removeToast from src/stores/ui.ts: keeps every item whose id differs
from the removed one. -/
def removeToast (id : String) (ts : List ToastItem) : List ToastItem :=
  ts.filter (fun t => t.id ≠ id)

/-- The fixed notification lifetime, from the 5000ms setTimeout delay in
the Toast component. -/
def toastLifetime : Nat := 5000

/-- Discrete-event run of the notification store up to a horizon time.
The inputs are the remaining pushes (in ascending time order), the pending
removal timers (in ascending fire-time order), and the current toast list;
the result is the toast list once every push and timer due at or before
the horizon has been processed.

A push at time s appends the toast (addToast) and then, as the Toast
component's effect does on the re-render, schedules a lifetime timer for
every toast now in the list. A due timer removes its toast (removeToast).
Because pushes arrive in time order and every timer scheduled by a push
fires a full lifetime after it, appending keeps the timer list in fire
order, so the next timer to fire is always the head. Effect runs triggered
by removals also re-schedule timers, but every such timer fires at or
after the expiry of the toast it names, when that toast is already gone,
so those no-op timers are omitted here. Among events at the same instant,
timers (queued strictly earlier) run before the push. -/
def toastSim (pushes : List (Nat × String × String × ToastType))
    (timers : List (Nat × String)) (ts : List ToastItem) (h : Nat) :
    List ToastItem :=
  match pushes, timers with
  | [], [] => ts
  | [], tm :: trest =>
    if tm.1 ≤ h then toastSim [] trest (removeToast tm.2 ts) h else ts
  | p :: prest, [] =>
    if p.1 ≤ h then
      toastSim prest
        ((addToast ts p.2.1 p.2.2.1 p.2.2.2).map
          (fun t => (p.1 + toastLifetime, t.id)))
        (addToast ts p.2.1 p.2.2.1 p.2.2.2) h
    else ts
  | p :: prest, tm :: trest =>
    if tm.1 ≤ p.1 then
      if tm.1 ≤ h then toastSim (p :: prest) trest (removeToast tm.2 ts) h else ts
    else
      if p.1 ≤ h then
        toastSim prest
          ((tm :: trest) ++ (addToast ts p.2.1 p.2.2.1 p.2.2.2).map
            (fun t => (p.1 + toastLifetime, t.id)))
          (addToast ts p.2.1 p.2.2.1 p.2.2.2) h
      else ts
termination_by (pushes.length, timers.length)
decreasing_by
  · exact Prod.Lex.right _ (Nat.lt_succ_self _)
  · exact Prod.Lex.left _ _ (Nat.lt_succ_self _)
  · exact Prod.Lex.right _ (Nat.lt_succ_self _)
  · exact Prod.Lex.left _ _ (Nat.lt_succ_self _)

/-- The initial preference object from src/stores/preferences.ts: theme
dark, tableDensity comfortable. -/
def prefDefaults : Obj String :=
  fun n =>
    if n = "theme" then some "dark"
    else if n = "tableDensity" then some "comfortable"
    else none

/-- The preference store: the in-memory preference object plus the single
named durable slot the persistence middleware writes it to (none when the
slot has never been written). -/
structure PrefStore : Type where
  state : Obj String
  slot : Option (Obj String)

/-- A preference write. The in-memory update is the store's set, which
shallow-merges the partial update into the state. Modelled from the spec:
the persistence middleware, which is not in the repository, durably writes
the updated state to the named slot on every change. -/
def prefSet (patch : Obj String) (s : PrefStore) : PrefStore :=
  { state := mergePatch s.state patch
    slot := some (mergePatch s.state patch) }

/-- setDensity from src/stores/preferences.ts: a set of the tableDensity
field alone. -/
def setDensity (d : String) (s : PrefStore) : PrefStore :=
  prefSet (objOf "tableDensity" d) s

/-- A process restart. Modelled from the spec: at process start the
persistence middleware, which is not in the repository, reads the durable
slot once and seeds the in-memory state from it, falling back to the
defaults field-by-field; a missing slot leaves the defaults. -/
def restart (slot : Option (Obj String)) : PrefStore :=
  match slot with
  | some st => { state := mergePatch prefDefaults st, slot := some st }
  | none => { state := prefDefaults, slot := none }

/-- Reading a preference by name with a fallback default. -/
def prefGet (name d : String) (s : PrefStore) : String :=
  (s.state name).getD d

/-- An HTTP response as the api client observes it: numeric status code
and raw body text. -/
structure HttpResponse : Type where
  status : Nat
  bodyText : String
deriving DecidableEq, Repr

/-- Whether the response is a success, per the ok flag the client branches
on: status in the range 200 to 299. -/
def responseOk (r : HttpResponse) : Bool :=
  200 ≤ r.status && r.status ≤ 299

/-- ApiError from src/types/common.ts: a typed failure carrying the HTTP
status code and a message, which the client fills with the response body
text. -/
structure ApiError : Type where
  status : Nat
  message : String
deriving DecidableEq, Repr

/-- Possible outcomes of the api client's parse: the decoded payload, a
typed ApiError failure, or a body that failed to decode as JSON. -/
inductive FetchOutcome (V : Type) : Type where
  | ok (v : V)
  | apiError (e : ApiError)
  | decodeError
deriving DecidableEq, Repr

/-- The parse function from src/api/client.ts: a response that is not ok
raises ApiError with the status and the body text; otherwise the body is
JSON-decoded (the decoder is a parameter standing for the platform JSON
parser) and the decoded payload is returned, a decode failure being the
platform parser's own error. -/
def parse {V : Type} (dec : String → Option V) (r : HttpResponse) :
    FetchOutcome V :=
  if responseOk r then
    match dec r.bodyText with
    | some v => FetchOutcome.ok v
    | none => FetchOutcome.decodeError
  else FetchOutcome.apiError ⟨r.status, r.bodyText⟩

/-- The invariant tying the in-flight count to the status: a key has
exactly one running loader invocation while fetching and none otherwise. -/
def FetchInv {K : Type} (s : FetchSys K) : Prop :=
  ∀ k, s.inflight k = if s.status k = Status.fetching then 1 else 0

/-- The two-field object with field a mapped to 1 and field b mapped to 2,
the expected result of accumulating the two example deltas. -/
def abObj : Obj Nat :=
  fun f => if f = "a" then some 1 else if f = "b" then some 2 else none

/-- A concrete frame decoder for witnesses: two recognized frames, all
others malformed. -/
def demoDecode : String → Option (DeltaEvent String Nat) :=
  fun s =>
    if s = "frameA" then some ⟨"k", objOf "a" 1⟩
    else if s = "frameB" then some ⟨"k", objOf "b" 2⟩
    else none

/-- A concrete cache for witnesses: one entry at key k with a stale value,
a recorded fetch time and an old error. -/
def demoCache : Cache String Nat :=
  fun k =>
    if k = "k" then some ⟨objOf "a" 1, Status.stale, some 3, some "old"⟩
    else none

/-- A concrete fetch-system state for witnesses: one fetch started for
key 0. -/
def demoFetching : FetchSys Nat :=
  fetchStep FetchSys.init (FetchOp.start 0)

/-- A concrete body decoder for witnesses: one recognized body. -/
def demoBodyDec : String → Option Nat :=
  fun s => if s = "payload" then some 7 else none

theorem mergePatch_empty {V : Type} (p : Obj V) : mergePatch emptyObj p = p := by
  funext f
  cases h : p f <;> simp [mergePatch, emptyObj, h]

/-- C1: applying a delta shallow-merges the patch into the value: a field
present in the patch replaces the corresponding field, a field absent from
the patch is preserved, and applying the patch mapping a to 1 and then the
patch mapping b to 2 to an empty entry yields the value mapping a to 1 and
b to 2. -/
theorem mergePatch_shallow :
    (∀ (V : Type) (old patch : Obj V) (f : String) (v : V),
      patch f = some v → mergePatch old patch f = some v)
    ∧ (∀ (V : Type) (old patch : Obj V) (f : String),
      patch f = none → mergePatch old patch f = old f)
    ∧ (∀ f : String,
      mergePatch (mergePatch (emptyObj : Obj Nat) (objOf "a" 1)) (objOf "b" 2) f
        = abObj f) := by
  refine ⟨?_, ?_, ?_⟩
  · intro V old patch f v h
    simp [mergePatch, h]
  · intro V old patch f h
    simp [mergePatch, h]
  · intro f
    by_cases ha : f = "a"
    · simp [mergePatch, objOf, emptyObj, abObj, ha]
    · by_cases hb : f = "b"
      · simp [mergePatch, objOf, emptyObj, abObj, ha, hb]
      · simp [mergePatch, objOf, emptyObj, abObj, ha, hb]

theorem mergePatch_shallow_witness :
    objOf "a" (1 : Nat) "a" = some 1
    ∧ mergePatch (objOf "b" (2 : Nat)) (objOf "a" 1) "a" = some 1
    ∧ objOf "a" (1 : Nat) "b" = none
    ∧ mergePatch (objOf "b" (2 : Nat)) (objOf "a" 1) "b" = objOf "b" 2 "b"
    ∧ mergePatch (mergePatch (emptyObj : Obj Nat) (objOf "a" 1)) (objOf "b" 2) "a"
        = abObj "a" := by
  refine ⟨by decide, ?_, by decide, ?_, ?_⟩
  · exact mergePatch_shallow.1 Nat (objOf "b" 2) (objOf "a" 1) "a" 1 (by decide)
  · exact mergePatch_shallow.2.1 Nat (objOf "b" 2) (objOf "a" 1) "b" (by decide)
  · exact mergePatch_shallow.2.2 "a"

/-- C3: a frame whose payload fails to decode is dropped alone and
processing continues: for a valid frame, then a malformed frame, then a
valid frame, both valid frames' deltas are applied to the cache. -/
theorem malformed_frame_dropped_alone (K V : Type) [DecidableEq K]
    (decode : String → Option (DeltaEvent K V)) (f1 fbad f2 : String)
    (e1 e2 : DeltaEvent K V) (c : Cache K V)
    (h1 : decode f1 = some e1) (hbad : decode fbad = none)
    (h2 : decode f2 = some e2) :
    processFrames decode [f1, fbad, f2] c = applyDelta (applyDelta c e1) e2 := by
  simp [processFrames, h1, hbad, h2]

theorem malformed_frame_dropped_alone_witness :
    demoDecode "frameA" = some ⟨"k", objOf "a" 1⟩
    ∧ demoDecode "bad" = none
    ∧ demoDecode "frameB" = some ⟨"k", objOf "b" 2⟩
    ∧ processFrames demoDecode ["frameA", "bad", "frameB"] emptyCache
        = applyDelta (applyDelta emptyCache ⟨"k", objOf "a" 1⟩) ⟨"k", objOf "b" 2⟩ := by
  refine ⟨by simp [demoDecode], by simp [demoDecode], by simp [demoDecode], ?_⟩
  exact malformed_frame_dropped_alone String Nat demoDecode "frameA" "bad" "frameB"
    ⟨"k", objOf "a" 1⟩ ⟨"k", objOf "b" 2⟩ emptyCache
    (by simp [demoDecode]) (by simp [demoDecode]) (by simp [demoDecode])

/-- C7: applying a delta to an existing entry changes only its value, by
the shallow merge; the entry's status, lastFetchedAt and error fields are
unchanged, and entries at other keys are untouched. -/
theorem applyDelta_freshness_neutral (K V : Type) [DecidableEq K]
    (c : Cache K V) (e : DeltaEvent K V) (entry : CacheEntry V)
    (h : c e.targetKey = some entry) :
    (∃ entry2, applyDelta c e e.targetKey = some entry2
      ∧ entry2.value = mergePatch entry.value e.patch
      ∧ entry2.status = entry.status
      ∧ entry2.lastFetchedAt = entry.lastFetchedAt
      ∧ entry2.error = entry.error)
    ∧ (∀ k, k ≠ e.targetKey → applyDelta c e k = c k) := by
  constructor
  · refine ⟨{ entry with value := mergePatch entry.value e.patch }, ?_, rfl, rfl, rfl, rfl⟩
    simp [applyDelta, h]
  · intro k hk
    simp [applyDelta, hk]

theorem applyDelta_freshness_neutral_witness :
    demoCache "k" = some ⟨objOf "a" 1, Status.stale, some 3, some "old"⟩
    ∧ ((∃ entry2,
        applyDelta demoCache ⟨"k", objOf "b" 2⟩ "k" = some entry2
        ∧ entry2.value = mergePatch (objOf "a" 1) (objOf "b" 2)
        ∧ entry2.status = Status.stale
        ∧ entry2.lastFetchedAt = some 3
        ∧ entry2.error = some "old")
      ∧ (∀ k, k ≠ "k" → applyDelta demoCache ⟨"k", objOf "b" 2⟩ k = demoCache k)) := by
  refine ⟨by simp [demoCache], ?_⟩
  exact applyDelta_freshness_neutral String Nat demoCache ⟨"k", objOf "b" 2⟩
    ⟨objOf "a" 1, Status.stale, some 3, some "old"⟩ (by simp [demoCache])

/-- C8: applying a delta whose target key has no entry creates one with
status fresh and value equal to the patch alone. -/
theorem applyDelta_bootstrap (K V : Type) [DecidableEq K]
    (c : Cache K V) (e : DeltaEvent K V) (h : c e.targetKey = none) :
    applyDelta c e e.targetKey
      = some { value := e.patch, status := Status.fresh, lastFetchedAt := none,
               error := none } := by
  simp [applyDelta, h, mergePatch_empty]

theorem applyDelta_bootstrap_witness :
    (emptyCache : Cache String Nat) "k" = none
    ∧ applyDelta (emptyCache : Cache String Nat) ⟨"k", objOf "a" 1⟩ "k"
        = some { value := objOf "a" 1, status := Status.fresh,
                 lastFetchedAt := none, error := none } := by
  refine ⟨rfl, ?_⟩
  exact applyDelta_bootstrap String Nat emptyCache ⟨"k", objOf "a" 1⟩ rfl

theorem fetchStep_inv {K : Type} [DecidableEq K] (s : FetchSys K) (op : FetchOp K)
    (hs : FetchInv s) : FetchInv (fetchStep s op) := by
  intro k
  cases op with
  | start k0 =>
    by_cases hf : s.status k0 = Status.fetching
    · simpa [fetchStep, hf] using hs k
    · by_cases hk : k = k0
      · subst hk
        have h0 : s.inflight k = 0 := by simpa [hf] using hs k
        simp [fetchStep, hf, h0]
      · simpa [fetchStep, hf, hk] using hs k
  | finishOk k0 =>
    by_cases hf : s.status k0 = Status.fetching
    · by_cases hk : k = k0
      · subst hk
        simp [fetchStep, hf]
      · simpa [fetchStep, hf, hk] using hs k
    · simpa [fetchStep, hf] using hs k
  | finishErr k0 =>
    by_cases hf : s.status k0 = Status.fetching
    · by_cases hk : k = k0
      · subst hk
        simp [fetchStep, hf]
      · simpa [fetchStep, hf, hk] using hs k
    · simpa [fetchStep, hf] using hs k

theorem foldl_fetchStep_inv {K : Type} [DecidableEq K] (ops : List (FetchOp K))
    (s : FetchSys K) (hs : FetchInv s) : FetchInv (ops.foldl fetchStep s) := by
  induction ops generalizing s with
  | nil => exact hs
  | cons op rest ih => exact ih (fetchStep s op) (fetchStep_inv s op hs)

theorem fetchRun_inv {K : Type} [DecidableEq K] (ops : List (FetchOp K)) :
    FetchInv (fetchRun ops) := by
  have h0 : FetchInv (FetchSys.init : FetchSys K) := by
    intro k
    simp [FetchSys.init]
  exact foldl_fetchStep_inv ops FetchSys.init h0

/-- C2: in every state reachable by any interleaving of fetch requests and
completions, at most one loader invocation is in flight per key; and a
fetch request for a key already fetching attaches to the in-flight
operation, leaving the state unchanged and invoking no second loader. -/
theorem fetch_at_most_one_inflight (K : Type) [DecidableEq K] :
    (∀ (ops : List (FetchOp K)) (k : K), (fetchRun ops).inflight k ≤ 1)
    ∧ (∀ (s : FetchSys K) (k : K), s.status k = Status.fetching →
        fetchStep s (FetchOp.start k) = s) := by
  constructor
  · intro ops k
    have h := fetchRun_inv ops k
    rw [h]
    split <;> omega
  · intro s k hf
    simp [fetchStep, hf]

theorem fetch_at_most_one_inflight_witness :
    (fetchRun [FetchOp.start 0, FetchOp.start 0]).inflight 0 ≤ 1
    ∧ demoFetching.status 0 = Status.fetching
    ∧ fetchStep demoFetching (FetchOp.start 0) = demoFetching := by
  refine ⟨(fetch_at_most_one_inflight Nat).1 [FetchOp.start 0, FetchOp.start 0] 0,
    ?_, ?_⟩
  · simp [demoFetching, fetchStep, FetchSys.init]
  · exact (fetch_at_most_one_inflight Nat).2 demoFetching 0
      (by simp [demoFetching, fetchStep, FetchSys.init])

/-- C4: a fetch failure after a prior successful fetch preserves the
previous value and fetch time, sets status to error, and records the
failure detail. -/
theorem fetch_stale_while_error (K V : Type) [DecidableEq K] (c : Cache K V)
    (k : K) (v : Obj V) (now : Nat) (msg : String) :
    fetchFail (fetchSucceed c k v now) k msg k
      = some { value := v, status := Status.error, lastFetchedAt := some now,
               error := some msg } := by
  simp [fetchFail, fetchSucceed]

/-- C6: a preference write survives a restart: setting any preference and
reloading from the durable slot yields the written value for any default,
and in particular writing density compact then restarting reads compact
against the comfortable default. -/
theorem pref_set_survives_restart :
    (∀ (s : PrefStore) (name v d : String),
      prefGet name d (restart (prefSet (objOf name v) s).slot) = v)
    ∧ (∀ s : PrefStore,
      prefGet "tableDensity" "comfortable" (restart (setDensity "compact" s).slot)
        = "compact") := by
  constructor
  · intro s name v d
    simp [prefGet, restart, prefSet, mergePatch, objOf]
  · intro s
    simp [prefGet, restart, setDensity, prefSet, mergePatch, objOf]

/-- C9: a response with a non-2xx status yields a typed failure carrying
the HTTP status code and the response body text; a 2xx response whose body
decodes yields the decoded JSON payload. -/
theorem parse_typed_failure (V : Type) (dec : String → Option V)
    (r : HttpResponse) :
    (responseOk r = false →
      parse dec r = FetchOutcome.apiError ⟨r.status, r.bodyText⟩)
    ∧ (∀ v, responseOk r = true → dec r.bodyText = some v →
      parse dec r = FetchOutcome.ok v) := by
  constructor
  · intro h
    simp [parse, h]
  · intro v hok hdec
    simp [parse, hok, hdec]

theorem parse_typed_failure_witness :
    responseOk ⟨404, "missing"⟩ = false
    ∧ parse demoBodyDec ⟨404, "missing"⟩ = FetchOutcome.apiError ⟨404, "missing"⟩
    ∧ responseOk ⟨200, "payload"⟩ = true
    ∧ demoBodyDec "payload" = some 7
    ∧ parse demoBodyDec ⟨200, "payload"⟩ = FetchOutcome.ok 7 := by
  refine ⟨by decide, ?_, by decide, by decide, ?_⟩
  · exact (parse_typed_failure Nat demoBodyDec ⟨404, "missing"⟩).1 (by decide)
  · exact (parse_typed_failure Nat demoBodyDec ⟨200, "payload"⟩).2 7 (by decide)
      (by decide)

/-- C10: setDensity writes the tableDensity preference and leaves every
other stored preference, in particular theme, unchanged. -/
theorem setDensity_frame (s : PrefStore) (d : String) :
    (setDensity d s).state "tableDensity" = some d
    ∧ (∀ n, n ≠ "tableDensity" → (setDensity d s).state n = s.state n)
    ∧ (setDensity d s).state "theme" = s.state "theme" := by
  refine ⟨?_, ?_, ?_⟩
  · simp [setDensity, prefSet, mergePatch, objOf]
  · intro n hn
    simp [setDensity, prefSet, mergePatch, objOf, hn]
  · simp [setDensity, prefSet, mergePatch, objOf]

theorem setDensity_frame_witness :
    (setDensity "compact" (restart none)).state "tableDensity" = some "compact"
    ∧ ("theme" : String) ≠ "tableDensity"
    ∧ (setDensity "compact" (restart none)).state "theme"
        = (restart none).state "theme" := by
  refine ⟨(setDensity_frame (restart none) "compact").1, by decide, ?_⟩
  exact (setDensity_frame (restart none) "compact").2.1 "theme" (by decide)

theorem removeToast_idem (id : String) (ts : List ToastItem) :
    removeToast id (removeToast id ts) = removeToast id ts := by
  simp [removeToast, List.filter_filter]

theorem toastSim_single (T : Nat) (id msg : String) (ty : ToastType) (t : Nat) :
    toastSim [(T, id, msg, ty)] [] [] t
      = if T ≤ t then
          (if T + toastLifetime ≤ t then [] else [ToastItem.mk id msg ty])
        else [] := by
  rw [toastSim.eq_def]
  simp only [addToast, List.nil_append, List.map]
  by_cases h1 : T ≤ t
  · rw [if_pos h1, toastSim.eq_def]
    simp only []
    by_cases h2 : T + toastLifetime ≤ t
    · rw [if_pos h2, toastSim.eq_def]
      simp [removeToast, h1, h2]
    · rw [if_neg h2]
      simp [h1, h2]
  · rw [if_neg h1]
    simp [h1]

/-- C5: a notification pushed at time T with no explicit dismissal is in
the store exactly on the half-open interval from T to T plus the fixed
lifetime — present at every instant before the lifetime elapses and absent
at every instant from then on — so it is removed exactly once; and remove
is idempotent: removing an already-removed id changes nothing. -/
theorem toast_lifetime_exact :
    (∀ (T : Nat) (id msg : String) (ty : ToastType) (t : Nat),
      (ToastItem.mk id msg ty ∈ toastSim [(T, id, msg, ty)] [] [] t)
        ↔ (T ≤ t ∧ t < T + toastLifetime))
    ∧ (∀ (id : String) (ts : List ToastItem),
      removeToast id (removeToast id ts) = removeToast id ts) := by
  constructor
  · intro T id msg ty t
    rw [toastSim_single]
    by_cases h1 : T ≤ t
    · by_cases h2 : T + toastLifetime ≤ t
      · simp [h1, h2]
      · simp [h1, h2]
        omega
    · simp [h1]
  · exact removeToast_idem

end AdOps
